import Mathlib

/-!
Shallow embedding of the `predict` Django app of the image_classification
repository (`src/predict/views.py`, `src/predict/models.py`) together with
theorems settling the frozen claims about file validation, label
localization, result formatting, persistence, history pagination and
deletion.

Python floats are modelled as rationals (`ℚ`); Python exceptions are
modelled as `Option`/`Except` results; the per-request observable state of
the reference JSON file is a `FileState` parameter; the database and the
media directory are explicit lists threaded through the operations.
-/

namespace ImageClassification

/-! ## Constants (views.py lines 29-33) -/

/-- `ITEMS_PER_PAGE = 10` (views.py line 31). -/
def ITEMS_PER_PAGE : Nat := 10

/-- `MAX_FILE_SIZE = 10 * 1024 * 1024` (views.py line 32). -/
def MAX_FILE_SIZE : Nat := 10 * 1024 * 1024

/-- `ALLOWED_EXTENSIONS = {'jpg', 'jpeg', 'png', 'bmp', 'gif'}`
(views.py line 33). -/
def ALLOWED_EXTENSIONS : List String := ["jpg", "jpeg", "png", "bmp", "gif"]

/-! ## String helpers (embedding Python string methods) -/

/-- Python `str.split(sep)` for a one-character separator, on the character
list: splitting never yields the empty list (the empty string splits to a
single empty group). -/
def splitOnChar (sep : Char) : List Char → List (List Char)
  | [] => [[]]
  | c :: rest =>
    let r := splitOnChar sep rest
    if c = sep then [] :: r
    else
      match r with
      | [] => [[c]]
      | g :: gs => (c :: g) :: gs

/-- Python `str.lower()` (ASCII-relevant part). -/
def lowerString (s : String) : String :=
  String.mk (s.data.map Char.toLower)

/-- Python `str.replace(a, b)` for one-character pattern and replacement. -/
def replaceChar (a b : Char) (s : String) : String :=
  String.mk (s.data.map fun c => if c = a then b else c)

/-- Digit list to number, as Python `int()` does once the shape is checked. -/
def digitsToNat (ds : List Char) : Nat :=
  ds.foldl (fun acc c => acc * 10 + (c.toNat - 48)) 0

/-- Python `int()` applied to a query-string value: an optional sign
followed by one or more digits parses to an integer; any other shape raises
`ValueError`, modelled as `none`. -/
def pyInt (s : String) : Option Int :=
  match s.data with
  | [] => none
  | c :: rest =>
    if c = '-' then
      if rest ≠ [] ∧ rest.all Char.isDigit then some (-(digitsToNat rest : Int)) else none
    else if c = '+' then
      if rest ≠ [] ∧ rest.all Char.isDigit then some ((digitsToNat rest : Int)) else none
    else
      if (c :: rest).all Char.isDigit then some ((digitsToNat (c :: rest) : Int)) else none

/-- Python `x or y` for an optional string `x`: the fallback `y` is taken
when `x` is `None` or an empty (falsy) string. -/
def pyOrStr (x : Option String) (y : String) : String :=
  match x with
  | none => y
  | some s => if s = "" then y else s

/-! ## Label localization (views.py lines 39-69) -/

/-- An entry of the reference JSON array `imagenet_class_index_jp.json`: a
dict whose relevant keys are `num` and `ja`; `item.get` returns `None`
(here `none`) when a key is absent. -/
structure JEntry where
  num : Option String
  ja : Option String
deriving DecidableEq

/-- The observable state of the reference file at the time a request reads
it: missing (`FileNotFoundError` on `open`), malformed
(`json.JSONDecodeError`), or a successfully parsed list of entries. -/
inductive FileState
  | missing
  | malformed
  | content (items : List JEntry)
deriving DecidableEq

/-- The scan inside `get_japanese_label`: the first item whose `num` equals
`class_id` yields its `ja` value (which may itself be absent). -/
def findLabel : List JEntry → String → Option String
  | [], _ => none
  | e :: rest, cid => if e.num = some cid then e.ja else findLabel rest cid

/-- `get_japanese_label` (views.py lines 39-69): the JSON file is opened and
parsed on every call; `FileNotFoundError`, `json.JSONDecodeError` and any
other exception are caught, logged and turned into `None`. -/
def get_japanese_label (fs : FileState) (class_id : String) : Option String :=
  match fs with
  | .content items => findLabel items class_id
  | .missing => none
  | .malformed => none

/-! ## Upload validation (views.py lines 72-95) -/

/-- An uploaded file as the validation code observes it: a filename and a
byte size. -/
structure UFile where
  name : String
  size : Nat
deriving DecidableEq

/-- The extension computed at views.py line 91:
`file.name.split('.')[-1].lower()`, i.e. the last dot-separated component of
the filename, lowercased. -/
def fileExt (name : String) : String :=
  lowerString (String.mk ((splitOnChar '.' name.data).getLastD []))

/-- `validate_image_file` (views.py lines 72-95): presence, then size, then
extension check, returning `(ok, error message)`. -/
def validate_image_file (file : Option UFile) : Bool × Option String :=
  match file with
  | none => (false, some "ファイルが選択されていません")
  | some f =>
    if f.size > MAX_FILE_SIZE then
      (false, some "ファイルサイズが大きすぎます（最大10MB）")
    else if fileExt f.name ∉ ALLOWED_EXTENSIONS then
      (false, some "許可されていないファイル形式です（対応形式: jpg, jpeg, png, bmp, gif）")
    else
      (true, none)

/-! ## Numeric formatting (Python round / format spec .2f) -/

/-- Round a rational to the nearest integer, ties to even — the rounding
Python applies both in `round(x, n)` and in `.2f` formatting. -/
def roundHalfEven (q : ℚ) : ℤ :=
  let f := ⌊q⌋
  let r := q - (f : ℚ)
  if r < 1 / 2 then f
  else if 1 / 2 < r then f + 1
  else if f % 2 = 0 then f else f + 1

/-- Python `round(x, 2)`: round half to even at two decimal places. -/
def pyRound2 (q : ℚ) : ℚ :=
  (roundHalfEven (q * 100) : ℚ) / 100

/-- Render a nonnegative count of hundredths as a fixed two-decimal
string. -/
def centiToString (n : Nat) : String :=
  toString (n / 100) ++ "." ++ (if n % 100 < 10 then "0" else "") ++ toString (n % 100)

/-- Python f-string `.2f` formatting of a rational-modelled value: round
half to even at two decimals and print with exactly two digits after the
point. -/
def fmt2 (q : ℚ) : String :=
  let n := roundHalfEven (q * 100)
  if n < 0 then "-" ++ centiToString (-n).toNat else centiToString n.toNat

/-! ## Result formatting (views.py lines 151-173) -/

/-- One element of the `decode_predictions` output: a
`(class_id, name, prob)` tuple. -/
structure PredTuple where
  class_id : String
  name : String
  prob : ℚ
deriving DecidableEq

/-- One entry of the list built by `format_predictions`. -/
structure Prediction where
  name : String
  prob : String
  raw_prob : ℚ
  class_id : String
deriving DecidableEq

/-- `format_predictions` (views.py lines 151-173): per entry, a Japanese
label with native-name fallback, a `.2f` percent string, the raw percent
value and the class id, in input order. -/
def format_predictions (fs : FileState) (results : List PredTuple) : List Prediction :=
  results.map fun t =>
    { name := pyOrStr (get_japanese_label fs t.class_id) (replaceChar '_' ' ' t.name)
      prob := fmt2 (t.prob * 100) ++ "%"
      raw_prob := t.prob * 100
      class_id := t.class_id }

/-! ## Persistence (views.py lines 176-210, models.py lines 7-67) -/

/-- The `AnalysisResult` fields set by `save_analysis_result`
(views.py lines 195-202); `image` stands for the stored blob reference. -/
structure AnalysisRecord where
  image : String
  original_filename : String
  prediction_label : String
  prediction_score : ℚ
  processing_time : ℚ
  model_version : String
deriving DecidableEq

/-- `save_analysis_result` (views.py lines 176-210): `results[0]` raising
`IndexError` on an empty list, and the database save raising (modelled by
`dbFails`), are both caught, logged and turned into `None`, leaving the
store unchanged; on success the new record is appended. -/
def save_analysis_result (fs : FileState) (dbFails : Bool) (file : UFile)
    (results : List PredTuple) (ptime : ℚ) (store : List AnalysisRecord) :
    Option AnalysisRecord × List AnalysisRecord :=
  match results with
  | [] => (none, store)
  | top :: _ =>
    if dbFails then (none, store)
    else
      let r : AnalysisRecord :=
        { image := file.name
          original_filename := file.name
          prediction_label :=
            pyOrStr (get_japanese_label fs top.class_id) (replaceChar '_' ' ' top.name)
          prediction_score := pyRound2 (top.prob * 100)
          processing_time := ptime
          model_version := "EfficientNetB0-v1.0" }
      (some r, store ++ [r])

/-! ## Upload request handler (views.py lines 216-274) -/

/-- The user-facing message attached to the response via
`django.contrib.messages`. -/
inductive Message
  | error (text : String)
  | success
  | warning
deriving DecidableEq

/-- The data the `index` view hands to the template. -/
structure Response where
  predictions : Option (List Prediction)
  image_data : Option String
  message : Option Message
deriving DecidableEq

/-- The POST branch of `index` (views.py lines 216-274). `decodeOk` models
whether `cv2.imdecode` succeeds on the uploaded bytes; `inferResults`
models `perform_prediction` (`none` = inference failed); `dbFails` models
the database save raising. Returns the rendered response together with the
resulting store. -/
def index_post (fs : FileState) (fileOpt : Option UFile) (decodeOk : Bool)
    (inferResults : Option (List PredTuple)) (dbFails : Bool) (ptime : ℚ)
    (store : List AnalysisRecord) : Response × List AnalysisRecord :=
  let v := validate_image_file fileOpt
  if v.1 = false then
    ({ predictions := none, image_data := none,
       message := some (.error (v.2.getD "")) }, store)
  else
    match fileOpt with
    | none =>
      ({ predictions := none, image_data := none,
         message := some (.error "") }, store)
    | some file =>
      if decodeOk = false then
        ({ predictions := none, image_data := none,
           message := some (.error "画像の読み込みに失敗しました。別の画像をお試しください。") }, store)
      else
        match inferResults with
        | none =>
          ({ predictions := none, image_data := none,
             message := some (.error "画像解析に失敗しました。もう一度お試しください。") }, store)
        | some results =>
          let preds := format_predictions fs results
          let saved := save_analysis_result fs dbFails file results ptime store
          match saved.1 with
          | some r =>
            ({ predictions := some preds, image_data := some r.image,
               message := some .success }, saved.2)
          | none =>
            ({ predictions := some preds, image_data := none,
               message := some .warning }, saved.2)

/-! ## History pagination (views.py lines 280-308, Django Paginator) -/

/-- Django `Paginator.num_pages` for `per_page = ITEMS_PER_PAGE`,
`orphans = 0`, `allow_empty_first_page = True`:
`ceil(max 1 count / per_page)`. -/
def num_pages (count : Nat) : Nat :=
  (max 1 count + ITEMS_PER_PAGE - 1) / ITEMS_PER_PAGE

/-- The two exception classes `Paginator.validate_number` can raise. -/
inductive PageError
  | notAnInteger
  | empty
deriving DecidableEq

/-- Django `Paginator.validate_number` on an already-parsed integer: a page
number below 1 raises `EmptyPage`; a page number above `num_pages` raises
`EmptyPage` unless it is 1 (the `allow_empty_first_page` escape, vacuous
here since `num_pages ≥ 1`). -/
def validate_number (count : Nat) (n : Int) : Except PageError Nat :=
  if n < 1 then .error .empty
  else if (num_pages count : Int) < n then
    if n = 1 then .ok 1 else .error .empty
  else .ok n.toNat

/-- The page-number resolution of `view_data` (views.py lines 292-303): the
raw `page` query parameter (`none` when absent, defaulting to the Python
integer 1) is fed to `paginator.page`; `PageNotAnInteger` falls back to
page 1 and `EmptyPage` falls back to the last page. -/
def view_data_page (count : Nat) (param : Option String) : Nat :=
  let parsed : Except PageError Nat :=
    match param with
    | none => validate_number count 1
    | some s =>
      match pyInt s with
      | none => .error .notAnInteger
      | some n => validate_number count n
  match parsed with
  | .ok p => p
  | .error .notAnInteger => 1
  | .error .empty => num_pages count

/-- The number of records on 1-based page `p` of a Django `Page` over
`count` records with page size `ITEMS_PER_PAGE`. -/
def page_len (count p : Nat) : Nat :=
  min ITEMS_PER_PAGE (count - (p - 1) * ITEMS_PER_PAGE)

/-! ## Deletion (models.py lines 107-112, views.py lines 314-334) -/

/-- State observed by the deletion path: the stored rows (primary key and
optional image path), the files present in the media directory, and the
paths at which `os.remove` raises (e.g. a permission error). -/
structure DeleteState where
  rows : List (Nat × Option String)
  files : List String
  removeFails : List String
deriving DecidableEq

/-- `super().delete()`: remove the row with primary key `pk`. -/
def dropRow (rows : List (Nat × Option String)) (pk : Nat) : List (Nat × Option String) :=
  rows.filter fun r => r.1 ≠ pk

/-- `AnalysisResult.delete` (models.py lines 107-112): when an image is set
and `os.path.isfile` holds, `os.remove` runs first and only then
`super().delete()`; an `os.remove` exception (modelled by membership in
`removeFails`) propagates before the row deletion is reached, leaving the
state unchanged (`none` = exception raised). -/
def AnalysisResult_delete (st : DeleteState) (pk : Nat) (img : Option String) :
    Option DeleteState :=
  match img with
  | none => some { st with rows := dropRow st.rows pk }
  | some p =>
    if p ∈ st.files then
      if p ∈ st.removeFails then none
      else some { st with files := st.files.erase p, rows := dropRow st.rows pk }
    else
      some { st with rows := dropRow st.rows pk }

/-- Row lookup, modelling `get_object_or_404(AnalysisResult, pk=pk)`. -/
def findRow : List (Nat × Option String) → Nat → Option (Option String)
  | [], _ => none
  | r :: rest, pk => if r.1 = pk then some r.2 else findRow rest pk

/-- Outcome of the `delete_data` view: a 404 response, a success redirect
with the new state, or a caught-exception error redirect with the state the
failed delete left behind. -/
inductive DeleteOutcome
  | notFound
  | success (st : DeleteState)
  | failure (st : DeleteState)
deriving DecidableEq

/-- `delete_data` (views.py lines 314-334): 404 when `pk` is absent;
otherwise `result.delete()` inside try/except — an exception yields an
error message, with the state as the failed delete left it. -/
def delete_data (st : DeleteState) (pk : Nat) : DeleteOutcome :=
  match findRow st.rows pk with
  | none => .notFound
  | some img =>
    match AnalysisResult_delete st pk img with
    | some st2 => .success st2
    | none => .failure st

/-! ## Helper lemmas -/

/-- The paginator always has at least one page. -/
theorem num_pages_pos (count : Nat) : 1 ≤ num_pages count := by
  simp only [num_pages, ITEMS_PER_PAGE]
  omega

/-- Rounding half to even never goes below zero on nonnegative input. -/
theorem roundHalfEven_nonneg {q : ℚ} (hq : 0 ≤ q) : 0 ≤ roundHalfEven q := by
  have hf : (0 : ℤ) ≤ ⌊q⌋ := Int.floor_nonneg.mpr hq
  simp only [roundHalfEven]
  split
  · exact hf
  · split
    · omega
    · split <;> omega

/-- Rounding half to even never exceeds an integer upper bound of the
input. -/
theorem roundHalfEven_le {q : ℚ} {n : ℤ} (hq : q ≤ (n : ℚ)) : roundHalfEven q ≤ n := by
  have hf : ⌊q⌋ ≤ n := by
    have h := Int.floor_le_floor hq
    rwa [Int.floor_intCast] at h
  have key : ¬ q - (⌊q⌋ : ℚ) < 1 / 2 → ⌊q⌋ + 1 ≤ n := by
    intro h
    rcases lt_or_eq_of_le hf with h' | h'
    · omega
    · exfalso
      apply h
      have hq' : q - (⌊q⌋ : ℚ) ≤ 0 := by
        rw [h']
        linarith
      linarith
  simp only [roundHalfEven]
  split
  · exact hf
  next h1 =>
    split
    · exact key h1
    · split
      · exact hf
      · exact key h1

/-- Python round to two decimals is nonnegative on nonnegative input. -/
theorem pyRound2_nonneg {q : ℚ} (h : 0 ≤ q) : 0 ≤ pyRound2 q := by
  unfold pyRound2
  have h1 : (0 : ℤ) ≤ roundHalfEven (q * 100) := roundHalfEven_nonneg (by linarith)
  apply div_nonneg _ (by norm_num)
  exact_mod_cast h1

/-- Python round to two decimals stays at or below 100 when the input
does. -/
theorem pyRound2_le_100 {q : ℚ} (h : q ≤ 100) : pyRound2 q ≤ 100 := by
  unfold pyRound2
  have h1 : roundHalfEven (q * 100) ≤ (10000 : ℤ) := by
    apply roundHalfEven_le
    push_cast
    linarith
  rw [div_le_iff₀ (by norm_num : (0 : ℚ) < 100)]
  have h2 : ((roundHalfEven (q * 100) : ℤ) : ℚ) ≤ 10000 := by exact_mod_cast h1
  linarith

/-- Evaluation of fmt2 once the rounding result is known. -/
theorem fmt2_of_roundHalfEven_eq {q : ℚ} {n : Nat}
    (h : roundHalfEven (q * 100) = (n : ℤ)) : fmt2 q = centiToString n := by
  unfold fmt2
  rw [h]
  simp

/-- The fixed numeric example of the spec: raw probability 0.9550234. -/
theorem fmt2_9550234 : fmt2 ((0.9550234 : ℚ) * 100) = "95.50" := by
  have hf : ⌊(0.9550234 : ℚ) * 100 * 100⌋ = 9550 := by
    rw [Int.floor_eq_iff]
    constructor <;> norm_num
  have h : roundHalfEven ((0.9550234 : ℚ) * 100 * 100) = ((9550 : Nat) : ℤ) := by
    unfold roundHalfEven
    rw [hf]
    norm_num
  rw [fmt2_of_roundHalfEven_eq h]
  decide

/-- Splitting a character list that does not contain the separator yields a
single group. -/
theorem splitOnChar_of_not_mem {sep : Char} {cs : List Char} (h : sep ∉ cs) :
    splitOnChar sep cs = [cs] := by
  induction cs with
  | nil => rfl
  | cons c rest ih =>
    have h1 : ¬ c = sep := fun hc => h (by simp [hc])
    have h2 : sep ∉ rest := fun hm => h (by simp [hm])
    simp only [splitOnChar]
    rw [if_neg h1, ih h2]

/-! ## Claim theorems -/

/-- C1, counterexample: the claim says a page number below 1 clamps to the
FIRST page, but Django raises EmptyPage for numbers below 1 and the
EmptyPage handler of view_data returns the LAST page: with 25 records
(3 pages of size 10), the page parameters 0 and -1 both yield page 3, not
page 1. -/
theorem C1_counterexample :
    num_pages 25 = 3
  ∧ view_data_page 25 (some "0") = 3
  ∧ view_data_page 25 (some "0") ≠ 1
  ∧ view_data_page 25 (some "-1") = 3 := by decide

/-- C1 (amended): a non-numeric page parameter falls back to page 1 and a
missing parameter defaults to page 1; a numeric page number below 1 or
beyond the last page clamps to the LAST page (which coincides with the
first page only when there is a single page); in-range page numbers are
honoured; the page size is ITEMS_PER_PAGE = 10 regardless of the record
count (every non-final page holds exactly 10 records and no page holds
more). -/
theorem C1_page_clamping (count : Nat) (s : String) :
    (∀ n : Int, pyInt s = some n → n < 1 →
        view_data_page count (some s) = num_pages count)
  ∧ (∀ n : Int, pyInt s = some n → (num_pages count : Int) < n →
        view_data_page count (some s) = num_pages count)
  ∧ (∀ n : Int, pyInt s = some n → 1 ≤ n → n ≤ (num_pages count : Int) →
        view_data_page count (some s) = n.toNat)
  ∧ (pyInt s = none → view_data_page count (some s) = 1)
  ∧ view_data_page count none = 1
  ∧ (∀ p : Nat, page_len count p ≤ ITEMS_PER_PAGE)
  ∧ (∀ p : Nat, 1 ≤ p → p < num_pages count → page_len count p = ITEMS_PER_PAGE) := by
  have hnp := num_pages_pos count
  refine ⟨?_, ?_, ?_, ?_, ?_, ?_, ?_⟩
  · intro n hn hlt
    simp only [view_data_page, hn, validate_number]
    rw [if_pos hlt]
  · intro n hn hgt
    simp only [view_data_page, hn, validate_number]
    rw [if_neg (by omega), if_pos hgt, if_neg (by omega : ¬ n = 1)]
  · intro n hn h1 h2
    simp only [view_data_page, hn, validate_number]
    rw [if_neg (by omega), if_neg (by omega)]
  · intro hn
    simp only [view_data_page, hn]
  · simp only [view_data_page, validate_number]
    rw [if_neg (by omega), if_neg (by omega)]
    rfl
  · intro p
    exact Nat.min_le_left _ _
  · intro p h1 h2
    simp only [page_len, num_pages, ITEMS_PER_PAGE] at h2 ⊢
    omega

/-- C1, witness for the amended theorem at concrete inputs. -/
theorem C1_page_clamping_witness :
    view_data_page 25 (some "0") = num_pages 25
  ∧ view_data_page 25 (some "99") = num_pages 25
  ∧ view_data_page 25 (some "2") = Int.toNat 2
  ∧ view_data_page 25 (some "abc") = 1
  ∧ view_data_page 25 none = 1
  ∧ page_len 25 4 ≤ ITEMS_PER_PAGE
  ∧ page_len 25 1 = ITEMS_PER_PAGE := by
  refine ⟨?_, ?_, ?_, ?_, ?_, ?_, ?_⟩
  · exact (C1_page_clamping 25 "0").1 0 (by decide) (by decide)
  · exact (C1_page_clamping 25 "99").2.1 99 (by decide) (by decide)
  · exact (C1_page_clamping 25 "2").2.2.1 2 (by decide) (by decide) (by decide)
  · exact (C1_page_clamping 25 "abc").2.2.2.1 (by decide)
  · exact (C1_page_clamping 25 "x").2.2.2.2.1
  · exact (C1_page_clamping 25 "x").2.2.2.2.2.1 4
  · exact (C1_page_clamping 25 "x").2.2.2.2.2.2 1 (by decide) (by decide)

/-- C2, counterexample: the claim says absence or malformation of the
reference file is raised and surfaced at load time and never handled
per-request — but get_japanese_label opens the file on every call and
converts FileNotFoundError and JSONDecodeError into a handled None result:
the lookup on a missing or malformed file returns None like any other
per-request outcome, and the very same call succeeds once the file is
present, showing the read happens per lookup. -/
theorem C2_counterexample :
    get_japanese_label FileState.missing "n02084071" = none
  ∧ get_japanese_label FileState.malformed "n02084071" = none
  ∧ get_japanese_label (FileState.content [⟨some "n02084071", some "イヌ"⟩]) "n02084071"
      = some "イヌ" := by decide

/-- C2 (amended): the lookup never raises — for a class_id absent from the
parsed table it returns None, and absence or malformation of the reference
file itself is likewise handled during each per-request lookup (caught,
logged, and turned into None) rather than being raised at startup. -/
theorem C2_lookup_never_raises (fs : FileState) (cid : String) :
    (∀ items, fs = FileState.content items → (∀ e ∈ items, e.num ≠ some cid) →
        get_japanese_label fs cid = none)
  ∧ (fs = FileState.missing → get_japanese_label fs cid = none)
  ∧ (fs = FileState.malformed → get_japanese_label fs cid = none) := by
  refine ⟨?_, ?_, ?_⟩
  · intro items hfs habs
    subst hfs
    simp only [get_japanese_label]
    induction items with
    | nil => rfl
    | cons e rest ih =>
      simp only [findLabel]
      rw [if_neg (habs e (by simp))]
      exact ih fun x hx => habs x (by simp [hx])
  · intro hfs
    subst hfs
    rfl
  · intro hfs
    subst hfs
    rfl

/-- C2, witness for the amended theorem at concrete inputs. -/
theorem C2_lookup_never_raises_witness :
    get_japanese_label (FileState.content [⟨some "n99999999", some "テスト"⟩]) "n02084071"
      = none
  ∧ get_japanese_label FileState.missing "n02084071" = none := by
  constructor
  · exact (C2_lookup_never_raises _ "n02084071").1 _ rfl (by decide)
  · exact (C2_lookup_never_raises FileState.missing "n02084071").2.1 rfl

/-- C3, counterexample: the claim says a failure to remove the blob does
not prevent removal of the database row, but AnalysisResult.delete removes
the blob BEFORE calling super().delete(): when os.remove raises, the
exception propagates to the delete_data handler (which catches and logs
it) and the row deletion is never reached — the record is still present
afterwards. -/
theorem C3_counterexample :
    delete_data ⟨[(1, some "uploads/a.jpg")], ["uploads/a.jpg"], ["uploads/a.jpg"]⟩ 1
      = DeleteOutcome.failure ⟨[(1, some "uploads/a.jpg")], ["uploads/a.jpg"], ["uploads/a.jpg"]⟩
  ∧ findRow [(1, some "uploads/a.jpg")] 1 = some (some "uploads/a.jpg") := by decide

/-- C3 (amended): deleting a nonexistent id yields the 404 outcome with no
state change; deleting an existing record removes the row, and removes the
blob first when one is present on disk; but when the blob removal raises,
the handler catches and logs the error and the row is NOT removed (blob
deletion precedes row deletion and its exception aborts the whole
delete). -/
theorem C3_delete_semantics (st : DeleteState) (pk : Nat) :
    (findRow st.rows pk = none → delete_data st pk = DeleteOutcome.notFound)
  ∧ (findRow st.rows pk = some none →
      delete_data st pk = DeleteOutcome.success { st with rows := dropRow st.rows pk })
  ∧ (∀ p, findRow st.rows pk = some (some p) → p ∉ st.files →
      delete_data st pk = DeleteOutcome.success { st with rows := dropRow st.rows pk })
  ∧ (∀ p, findRow st.rows pk = some (some p) → p ∈ st.files → p ∉ st.removeFails →
      delete_data st pk = DeleteOutcome.success
        { st with files := st.files.erase p, rows := dropRow st.rows pk })
  ∧ (∀ p, findRow st.rows pk = some (some p) → p ∈ st.files → p ∈ st.removeFails →
      delete_data st pk = DeleteOutcome.failure st) := by
  refine ⟨?_, ?_, ?_, ?_, ?_⟩
  · intro h
    simp only [delete_data, h]
  · intro h
    simp only [delete_data, h, AnalysisResult_delete]
  · intro p h hp
    simp only [delete_data, h, AnalysisResult_delete]
    rw [if_neg hp]
  · intro p h hp hq
    simp only [delete_data, h, AnalysisResult_delete]
    rw [if_pos hp, if_neg hq]
  · intro p h hp hq
    simp only [delete_data, h, AnalysisResult_delete]
    rw [if_pos hp, if_pos hq]

/-- C3, witness for the amended theorem at concrete states. -/
theorem C3_delete_semantics_witness :
    delete_data ⟨[(1, some "a"), (2, none), (3, some "b"), (4, some "c")], ["a", "c"], ["c"]⟩ 9
      = DeleteOutcome.notFound
  ∧ delete_data ⟨[(1, some "a"), (2, none), (3, some "b"), (4, some "c")], ["a", "c"], ["c"]⟩ 2
      = DeleteOutcome.success ⟨[(1, some "a"), (3, some "b"), (4, some "c")], ["a", "c"], ["c"]⟩
  ∧ delete_data ⟨[(1, some "a"), (2, none), (3, some "b"), (4, some "c")], ["a", "c"], ["c"]⟩ 3
      = DeleteOutcome.success ⟨[(1, some "a"), (2, none), (4, some "c")], ["a", "c"], ["c"]⟩
  ∧ delete_data ⟨[(1, some "a"), (2, none), (3, some "b"), (4, some "c")], ["a", "c"], ["c"]⟩ 1
      = DeleteOutcome.success ⟨[(2, none), (3, some "b"), (4, some "c")], ["c"], ["c"]⟩
  ∧ delete_data ⟨[(1, some "a"), (2, none), (3, some "b"), (4, some "c")], ["a", "c"], ["c"]⟩ 4
      = DeleteOutcome.failure ⟨[(1, some "a"), (2, none), (3, some "b"), (4, some "c")], ["a", "c"], ["c"]⟩ := by
  refine ⟨?_, ?_, ?_, ?_, ?_⟩
  · exact (C3_delete_semantics _ 9).1 (by decide)
  · exact (C3_delete_semantics _ 2).2.1 (by decide)
  · exact (C3_delete_semantics _ 3).2.2.1 "b" (by decide) (by decide)
  · exact (C3_delete_semantics _ 1).2.2.2.1 "a" (by decide) (by decide) (by decide)
  · exact (C3_delete_semantics _ 4).2.2.2.2 "c" (by decide) (by decide) (by decide)

/-- C4: for a present file whose extension is in the allow-list,
validation accepts exactly the sizes up to MAX_FILE_SIZE and rejects one
byte over; any over-limit file is rejected; a file with an extension
outside the allow-list is rejected with a user-facing reason string. -/
theorem C4_validate_size_and_extension (f : UFile) :
    (fileExt f.name ∈ ALLOWED_EXTENSIONS →
      (((validate_image_file (some f)).1 = true) ↔ f.size ≤ MAX_FILE_SIZE))
  ∧ (f.size = MAX_FILE_SIZE + 1 → (validate_image_file (some f)).1 = false)
  ∧ (fileExt f.name ∉ ALLOWED_EXTENSIONS →
      (validate_image_file (some f)).1 = false
        ∧ ∃ msg, (validate_image_file (some f)).2 = some msg) := by
  refine ⟨?_, ?_, ?_⟩
  · intro hext
    by_cases hs : f.size > MAX_FILE_SIZE
    · simp only [validate_image_file]
      rw [if_pos hs]
      simpa using by omega
    · simp only [validate_image_file]
      rw [if_neg hs, if_neg (not_not_intro hext)]
      simpa using Nat.le_of_not_lt hs
  · intro h
    simp only [validate_image_file]
    rw [if_pos (by omega)]
  · intro hext
    by_cases hs : f.size > MAX_FILE_SIZE
    · simp only [validate_image_file]
      rw [if_pos hs]
      exact ⟨rfl, _, rfl⟩
    · simp only [validate_image_file]
      rw [if_neg hs, if_pos hext]
      exact ⟨rfl, _, rfl⟩

/-- C4, witness at concrete files: exactly at the limit, one byte over the
limit, and a disallowed extension. -/
theorem C4_validate_witness :
    (validate_image_file (some ⟨"cat.jpg", MAX_FILE_SIZE⟩)).1 = true
  ∧ (validate_image_file (some ⟨"cat.jpg", MAX_FILE_SIZE + 1⟩)).1 = false
  ∧ (validate_image_file (some ⟨"malware.exe", 4⟩)).1 = false := by
  refine ⟨?_, ?_, ?_⟩
  · exact ((C4_validate_size_and_extension ⟨"cat.jpg", MAX_FILE_SIZE⟩).1 (by decide)).mpr
      (by decide)
  · exact (C4_validate_size_and_extension ⟨"cat.jpg", MAX_FILE_SIZE + 1⟩).2.1 rfl
  · exact ((C4_validate_size_and_extension ⟨"malware.exe", 4⟩).2.2 (by decide)).1

/-- C5: format_predictions preserves the input ordering (entry i of the
output is built from entry i of the input, and the lengths agree) and
renders each probability as the raw probability ×100 with exactly two
decimal places and a trailing percent sign; in particular raw probability
0.9550234 renders as "95.50%". -/
theorem C5_format_order_and_percent (fs : FileState) (results : List PredTuple) :
    (format_predictions fs results).length = results.length
  ∧ (∀ (i : Nat) (t : PredTuple), results[i]? = some t →
      (format_predictions fs results)[i]? = some
        { name := pyOrStr (get_japanese_label fs t.class_id) (replaceChar '_' ' ' t.name)
          prob := fmt2 (t.prob * 100) ++ "%"
          raw_prob := t.prob * 100
          class_id := t.class_id })
  ∧ fmt2 ((0.9550234 : ℚ) * 100) ++ "%" = "95.50%" := by
  refine ⟨List.length_map _ _, ?_, ?_⟩
  · intro i t ht
    simp only [format_predictions, List.getElem?_map, ht, Option.map_some']
  · rw [fmt2_9550234]
    rfl

/-- C5, witness at a concrete one-element ranked list. -/
theorem C5_format_witness :
    (format_predictions FileState.missing
        [⟨"n02099601", "golden_retriever", (0.9550234 : ℚ)⟩])[0]?
      = some
        { name := pyOrStr (get_japanese_label FileState.missing "n02099601")
            (replaceChar '_' ' ' "golden_retriever")
          prob := fmt2 ((0.9550234 : ℚ) * 100) ++ "%"
          raw_prob := (0.9550234 : ℚ) * 100
          class_id := "n02099601" } := by
  exact (C5_format_order_and_percent FileState.missing
    [⟨"n02099601", "golden_retriever", (0.9550234 : ℚ)⟩]).2.1 0 _ rfl

/-- C6: when persistence fails (the database save raises, dbFails = true),
save_analysis_result returns None instead of raising and leaves the store
unchanged, and the request still succeeds from the user point of view: the
response carries the full ranked predictions together with a warning (and
not an error). -/
theorem C6_persistence_failure_nonfatal (fs : FileState) (f : UFile)
    (results : List PredTuple) (ptime : ℚ) (store : List AnalysisRecord)
    (hvalid : (validate_image_file (some f)).1 = true) :
    (save_analysis_result fs true f results ptime store).1 = none
  ∧ (save_analysis_result fs true f results ptime store).2 = store
  ∧ (index_post fs (some f) true (some results) true ptime store).1.predictions
      = some (format_predictions fs results)
  ∧ (index_post fs (some f) true (some results) true ptime store).1.message
      = some Message.warning
  ∧ (index_post fs (some f) true (some results) true ptime store).2 = store := by
  have hsave : save_analysis_result fs true f results ptime store = (none, store) := by
    cases results <;> simp [save_analysis_result]
  refine ⟨by rw [hsave], by rw [hsave], ?_, ?_, ?_⟩ <;>
    simp [index_post, hvalid, hsave]

/-- C6, witness at a concrete valid upload whose save fails. -/
theorem C6_persistence_failure_witness :
    (save_analysis_result FileState.missing true ⟨"cat.jpg", 4⟩
        [⟨"n02099601", "golden_retriever", (0.9550234 : ℚ)⟩] 1 []).1 = none
  ∧ (index_post FileState.missing (some ⟨"cat.jpg", 4⟩) true
        (some [⟨"n02099601", "golden_retriever", (0.9550234 : ℚ)⟩]) true 1 []).1.predictions
      = some (format_predictions FileState.missing
          [⟨"n02099601", "golden_retriever", (0.9550234 : ℚ)⟩])
  ∧ (index_post FileState.missing (some ⟨"cat.jpg", 4⟩) true
        (some [⟨"n02099601", "golden_retriever", (0.9550234 : ℚ)⟩]) true 1 []).1.message
      = some Message.warning := by
  have h := C6_persistence_failure_nonfatal FileState.missing ⟨"cat.jpg", 4⟩
    [⟨"n02099601", "golden_retriever", (0.9550234 : ℚ)⟩] 1 [] (by decide)
  exact ⟨h.1, h.2.2.1, h.2.2.2.1⟩

/-- C7: a request that fails at validation, at image decoding, or during
inference produces an error message and no predictions, and creates no
record (the store is unchanged — no partial state). -/
theorem C7_failure_creates_no_record (fs : FileState) (fileOpt : Option UFile)
    (decodeOk : Bool) (infer : Option (List PredTuple)) (dbFails : Bool)
    (ptime : ℚ) (store : List AnalysisRecord)
    (hfail : (validate_image_file fileOpt).1 = false ∨ decodeOk = false ∨ infer = none) :
    (index_post fs fileOpt decodeOk infer dbFails ptime store).1.predictions = none
  ∧ (∃ t, (index_post fs fileOpt decodeOk infer dbFails ptime store).1.message
        = some (Message.error t))
  ∧ (index_post fs fileOpt decodeOk infer dbFails ptime store).2 = store := by
  by_cases hv : (validate_image_file fileOpt).1 = false
  · exact ⟨by simp [index_post, hv],
      ⟨(validate_image_file fileOpt).2.getD "", by simp [index_post, hv]⟩,
      by simp [index_post, hv]⟩
  · have hvt : (validate_image_file fileOpt).1 = true := by
      cases h : (validate_image_file fileOpt).1
      · exact absurd h hv
      · rfl
    cases fileOpt with
    | none =>
      exfalso
      simp [validate_image_file] at hvt
    | some f =>
      rcases hfail with hv' | hd | hi
      · exact absurd hv' hv
      · subst hd
        exact ⟨by simp [index_post, hvt],
          ⟨"画像の読み込みに失敗しました。別の画像をお試しください。", by simp [index_post, hvt]⟩,
          by simp [index_post, hvt]⟩
      · subst hi
        cases decodeOk
        · exact ⟨by simp [index_post, hvt],
            ⟨"画像の読み込みに失敗しました。別の画像をお試しください。", by simp [index_post, hvt]⟩,
            by simp [index_post, hvt]⟩
        · exact ⟨by simp [index_post, hvt],
            ⟨"画像解析に失敗しました。もう一度お試しください。", by simp [index_post, hvt]⟩,
            by simp [index_post, hvt]⟩

/-- C7, witness: a request with no file fails validation, yields an error
with no predictions, and creates no record. -/
theorem C7_failure_witness :
    (index_post FileState.missing none true (some []) false 1 []).1.predictions = none
  ∧ (∃ t, (index_post FileState.missing none true (some []) false 1 []).1.message
        = some (Message.error t))
  ∧ (index_post FileState.missing none true (some []) false 1 []).2 = [] := by
  exact C7_failure_creates_no_record FileState.missing none true (some []) false 1 []
    (Or.inl (by decide))

/-- C8: every successfully saved record stores prediction_score equal to
the raw top-1 probability ×100 rounded (half to even) to two decimals, and
whenever the raw probability lies in the unit interval the stored score
lies in the interval from 0 to 100. -/
theorem C8_stored_score (fs : FileState) (dbFails : Bool) (f : UFile)
    (top : PredTuple) (rest : List PredTuple) (ptime : ℚ)
    (store : List AnalysisRecord) (r : AnalysisRecord)
    (hsave : (save_analysis_result fs dbFails f (top :: rest) ptime store).1 = some r) :
    r.prediction_score = pyRound2 (top.prob * 100)
  ∧ (0 ≤ top.prob → top.prob ≤ 1 →
      0 ≤ r.prediction_score ∧ r.prediction_score ≤ 100) := by
  cases dbFails
  · simp only [save_analysis_result, Bool.false_eq_true, if_false, Option.some.injEq] at hsave
    subst hsave
    refine ⟨rfl, ?_⟩
    intro h0 h1
    constructor
    · exact pyRound2_nonneg (by linarith)
    · exact pyRound2_le_100 (by linarith)
  · simp [save_analysis_result] at hsave

/-- C8, witness at a concrete saved record. -/
theorem C8_stored_score_witness :
    (save_analysis_result FileState.missing false ⟨"cat.jpg", 4⟩
        [⟨"n02099601", "golden_retriever", (0.9550234 : ℚ)⟩] 1 []).1
      = some
        { image := "cat.jpg"
          original_filename := "cat.jpg"
          prediction_label := pyOrStr (get_japanese_label FileState.missing "n02099601")
            (replaceChar '_' ' ' "golden_retriever")
          prediction_score := pyRound2 ((0.9550234 : ℚ) * 100)
          processing_time := 1
          model_version := "EfficientNetB0-v1.0" }
  ∧ 0 ≤ pyRound2 ((0.9550234 : ℚ) * 100)
  ∧ pyRound2 ((0.9550234 : ℚ) * 100) ≤ 100 := by
  have h := (C8_stored_score FileState.missing false ⟨"cat.jpg", 4⟩
    ⟨"n02099601", "golden_retriever", (0.9550234 : ℚ)⟩ [] 1 [] _ rfl).2
    (by norm_num) (by norm_num)
  exact ⟨rfl, h.1, h.2⟩

/-- C9: both in formatting and in saving, the fallback label (the native
label with underscores replaced by spaces) is used whenever the localizer
result is falsy — None or the empty string — so a table entry mapping the
class id to an empty localized string still yields the transformed native
label. -/
theorem C9_falsy_label_fallback (fs : FileState) (t : PredTuple)
    (rest : List PredTuple) (f : UFile) (ptime : ℚ) (store : List AnalysisRecord)
    (hfalsy : get_japanese_label fs t.class_id = some "" ∨
              get_japanese_label fs t.class_id = none) :
    ((format_predictions fs (t :: rest)).head?.map Prediction.name)
      = some (replaceChar '_' ' ' t.name)
  ∧ (∀ r, (save_analysis_result fs false f (t :: rest) ptime store).1 = some r →
      r.prediction_label = replaceChar '_' ' ' t.name) := by
  have hlab : pyOrStr (get_japanese_label fs t.class_id) (replaceChar '_' ' ' t.name)
      = replaceChar '_' ' ' t.name := by
    rcases hfalsy with h | h <;> simp [pyOrStr, h]
  constructor
  · simp [format_predictions, hlab]
  · intro r hr
    simp only [save_analysis_result, Bool.false_eq_true, if_false, Option.some.injEq] at hr
    subst hr
    exact hlab

/-- C9, witness: a reference table mapping the class id to the empty string
still yields the underscores-to-spaces native label. -/
theorem C9_falsy_label_witness :
    ((format_predictions (FileState.content [⟨some "n02099601", some ""⟩])
        [⟨"n02099601", "golden_retriever", (0.5 : ℚ)⟩]).head?.map Prediction.name)
      = some (replaceChar '_' ' ' "golden_retriever")
  ∧ get_japanese_label (FileState.content [⟨some "n02099601", some ""⟩]) "n02099601"
      = some "" := by
  refine ⟨?_, by decide⟩
  exact (C9_falsy_label_fallback (FileState.content [⟨some "n02099601", some ""⟩])
    ⟨"n02099601", "golden_retriever", (0.5 : ℚ)⟩ [] ⟨"x.jpg", 1⟩ 1 []
    (Or.inl (by decide))).1

/-- C10: for a file whose name contains no dot, the extension check uses
the entire lowercased filename as the extension, so (within the size
limit) validation accepts the file exactly when the whole lowercased name
is an allow-list word — a file named exactly "png" passes, any other
dotless name is rejected. -/
theorem C10_dotless_extension (f : UFile) (hnd : '.' ∉ f.name.data) :
    fileExt f.name = lowerString f.name
  ∧ (f.size ≤ MAX_FILE_SIZE →
      (((validate_image_file (some f)).1 = true) ↔
        lowerString f.name ∈ ALLOWED_EXTENSIONS)) := by
  have hext : fileExt f.name = lowerString f.name := by
    unfold fileExt
    rw [splitOnChar_of_not_mem hnd]
    rfl
  refine ⟨hext, ?_⟩
  intro hsize
  simp only [validate_image_file]
  rw [if_neg (by omega : ¬ f.size > MAX_FILE_SIZE), hext]
  by_cases hm : lowerString f.name ∈ ALLOWED_EXTENSIONS
  · rw [if_neg (not_not_intro hm)]
    simpa using hm
  · rw [if_pos hm]
    simpa using hm

/-- C10, witness: a dotless file named exactly "png" passes, a dotless
name outside the allow-list is rejected. -/
theorem C10_dotless_witness :
    fileExt "png" = lowerString "png"
  ∧ (validate_image_file (some ⟨"png", 4⟩)).1 = true
  ∧ (validate_image_file (some ⟨"notanimage", 4⟩)).1 = false := by
  refine ⟨(C10_dotless_extension ⟨"png", 4⟩ (by decide)).1, ?_, ?_⟩
  · exact ((C10_dotless_extension ⟨"png", 4⟩ (by decide)).2 (by decide)).mpr (by decide)
  · have h := (C10_dotless_extension ⟨"notanimage", 4⟩ (by decide)).2 (by decide)
    have hm : lowerString "notanimage" ∉ ALLOWED_EXTENSIONS := by decide
    cases hb : (validate_image_file (some ⟨"notanimage", 4⟩)).1
    · rfl
    · exact absurd (h.mp hb) hm

end ImageClassification
